import Mathlib

/-!
Verification of the labelling-tool client workflow actions
(src/code/ui/src/actions/index.js) and the navigation-bar view-mode toggle.

Each redux thunk is embedded as a pure function from the store state and the
HTTP responses it will receive to the ordered list of observable events it
produces: dispatched plain actions and outbound HTTP requests.  Chained
thunks (read-ahead fetch, stats refresh) are inlined as the event lists they
would produce, in dispatch order.
-/

namespace Labelling

/-- Primitive JSON values appearing in payload fields. -/
inductive JVal where
  | vnull
  | vbool (b : Bool)
  | vnum (n : Int)
  | vstr (s : String)
deriving DecidableEq

/-- A flat JSON object: an ordered field list. -/
abbrev JObject := List (String × JVal)

/-- A JSON response payload: either an object or an array of objects
(the two shapes the backend returns). -/
inductive Json where
  | obj (fields : JObject)
  | arr (elems : List JObject)
deriving DecidableEq

/-- Field lookup on an object; arrays have no named fields.  Mirrors the
JavaScript bracket access used by the actions. -/
def Json.getField : Json → String → Option JVal
  | Json.obj fields, k => (fields.find? (fun p => p.1 == k)).map (fun p => p.2)
  | Json.arr _, _ => none

/-- JavaScript truthiness of a primitive value. -/
def JVal.truthy : JVal → Bool
  | JVal.vnull => false
  | JVal.vbool b => b
  | JVal.vnum n => n != 0
  | JVal.vstr s => s != ""

/-- Truthiness of a field access, an absent field being falsy, as in
the check of the done flag in fetchNextBatchItemsBatch. -/
def Json.truthyField (j : Json) (k : String) : Bool :=
  match j.getField k with
  | some v => v.truthy
  | none => false

/-- String coercion applied when a value is wrapped in an Error whose
message is later dispatched. -/
def JVal.asMessage : JVal → String
  | JVal.vnull => "null"
  | JVal.vbool b => if b then "true" else "false"
  | JVal.vnum n => toString n
  | JVal.vstr s => s

/-- Field lookup on one item object, as in the bracket access on an item. -/
def itemField (item : JObject) (k : String) : Option JVal :=
  (item.find? (fun p => p.1 == k)).map (fun p => p.2)

/-- Request bodies the client serializes. -/
inductive RequestBody where
  | noBody
  | judgement (id : Option JVal) (label : String)
  | batchLabels (labels : List JObject)
  | predictImages (urls : List String)
  | predictTexts (texts : List String)
  | jsonNull
deriving DecidableEq

/-- An outbound HTTP request. -/
structure Request where
  url : String
  method : String
  body : RequestBody
deriving DecidableEq

/-- An HTTP response as observed by the fetch handlers. -/
structure Response where
  ok : Bool
  statusText : String
  json : Json
deriving DecidableEq

/-- The plain redux actions created in actions/index.js (the action
creators used by the workflow thunks). -/
inductive Action where
  | fetchTask
  | fetchTaskSuccess (task : Json)
  | fetchTaskFailure (errorMsg : String)
  | fetchStats
  | fetchStatsSuccess (stats : Json)
  | fetchStatsFailure (errorMsg : String)
  | fetchItems
  | fetchItemsSuccess (items : Json)
  | fetchItemsFailure (errorMsg : String)
  | recordJudgement (itemId : Option JVal) (judgement : String)
  | recordJudgementSuccess (itemId : Option JVal)
  | recordJudgementFailure (itemId : Option JVal) (errorMsg : String)
  | showNextItem
  | labellingComplete
  | submitData (data : RequestBody)
  | submitDataSuccess (response : Json)
  | submitDataFailure (errorMsg : String)
  | recordJudgements (judgements : List JObject)
  | recordJudgementsSuccess (judgements : List JObject)
  | recordJudgementsFailure (judgements : List JObject) (errorMsg : String)
  | fetchBatchItems
  | fetchBatchItemsSuccess (items : Json)
  | fetchBatchItemsFailure (errorMsg : String)
  | batchLabellingComplete
  | setIsBatchView (isBatchView : Bool)
deriving DecidableEq

/-- An observable event of a thunk run: a dispatched action or an
outbound request. -/
inductive Event where
  | dispatch (action : Action)
  | request (req : Request)
deriving DecidableEq

/-- The slice state.judgements read by the submission guards. -/
structure JudgementsState where
  submitting : Bool
deriving DecidableEq

/-- The slice state.items read by submitJudgement. -/
structure ItemsState where
  items : List JObject
  currentIndex : Nat
deriving DecidableEq

/-- The slice state.task read by the views and by submitDataToScore. -/
structure TaskState where
  dataType : String
  labelType : String
  isBatchView : Bool
deriving DecidableEq

/-- The slice state.demo read by submitDataToScore. -/
structure DemoState where
  urlSequence : String
  text : String
deriving DecidableEq

/-- The store state, restricted to the slices the embedded code reads. -/
structure State where
  judgements : JudgementsState
  items : ItemsState
  task : TaskState
  demo : DemoState
deriving DecidableEq

/-- The actions dispatched within an event list, in order. -/
def actionsOf (events : List Event) : List Action :=
  events.filterMap (fun e =>
    match e with
    | Event.dispatch a => some a
    | Event.request _ => none)

/-- The requests issued within an event list, in order. -/
def requestsOf (events : List Event) : List Request :=
  events.filterMap (fun e =>
    match e with
    | Event.request r => some r
    | Event.dispatch _ => none)

/-- Folding a reducer over a list of dispatched actions: the only way the
store state changes. -/
def applyActions (reduce : State → Action → State) (s : State) (as : List Action) : State :=
  as.foldl reduce s

/-- Query-string rendering of the forwarded params, as URLSearchParams
renders them (field=value pairs joined by ampersands; percent-encoding is
out of scope, no claim depends on it). -/
def queryString (params : List (String × String)) : String :=
  String.intercalate "&" (params.map (fun p => p.1 ++ "=" ++ p.2))

/-- getNextBatch: dispatch fetchItems, GET /batch?query, then on ok status
dispatch fetchItemsSuccess with the payload (no domain-error inspection),
otherwise fetchItemsFailure with the prefixed status text.  A call with no
argument is the call with the empty params list. -/
def getNextBatch (params : List (String × String)) (resp : Response) : List Event :=
  [Event.dispatch Action.fetchItems,
   Event.request ⟨"/batch?" ++ queryString params, "GET", RequestBody.noBody⟩] ++
  (if resp.ok then
    [Event.dispatch (Action.fetchItemsSuccess resp.json)]
  else
    [Event.dispatch (Action.fetchItemsFailure ("Error fetching batch items: " ++ resp.statusText))])

/-- getStats: dispatch fetchStats, GET /history, then success with the
payload or failure with the prefixed status text. -/
def getStats (resp : Response) : List Event :=
  [Event.dispatch Action.fetchStats,
   Event.request ⟨"/history", "GET", RequestBody.noBody⟩] ++
  (if resp.ok then
    [Event.dispatch (Action.fetchStatsSuccess resp.json)]
  else
    [Event.dispatch (Action.fetchStatsFailure ("Error fetching stats: " ++ resp.statusText))])

/-- getTask: dispatch fetchTask, GET /task, then success with the payload
or failure; the source reuses the stats wording in the failure message. -/
def getTask (resp : Response) : List Event :=
  [Event.dispatch Action.fetchTask,
   Event.request ⟨"/task", "GET", RequestBody.noBody⟩] ++
  (if resp.ok then
    [Event.dispatch (Action.fetchTaskSuccess resp.json)]
  else
    [Event.dispatch (Action.fetchTaskFailure ("Error fetching stats: " ++ resp.statusText))])

/-- submitJudgementToBackend: dispatch recordJudgement, POST /judgements
with body id and label, then: non-ok status throws the status text; an ok
payload with an error field throws that field; both land in the catch that
dispatches recordJudgementFailure; otherwise dispatch
recordJudgementSuccess and run the success callback. -/
def submitJudgementToBackend (itemId : Option JVal) (judgement : String)
    (resp : Response) (successCallback : List Event) : List Event :=
  [Event.dispatch (Action.recordJudgement itemId judgement),
   Event.request ⟨"/judgements", "POST", RequestBody.judgement itemId judgement⟩] ++
  (match resp.ok, resp.json.getField "error" with
   | false, _ => [Event.dispatch (Action.recordJudgementFailure itemId resp.statusText)]
   | true, some e => [Event.dispatch (Action.recordJudgementFailure itemId e.asMessage)]
   | true, none => Event.dispatch (Action.recordJudgementSuccess itemId) :: successCallback)

/-- submitJudgement: if state.judgements.submitting the call returns at
once (only a console trace), producing no events.  Otherwise it reads the
path field of the item at currentIndex (indexing past the end of the item
list throws in the source, modelled as none) and submits it with a success
callback that conditionally fetches the next batch (no params), refreshes
stats, and advances the cursor. -/
def submitJudgement (judgement : String) (state : State)
    (submitResp batchResp statsResp : Response) : Option (List Event) :=
  if state.judgements.submitting then
    some []
  else
    match state.items.items[state.items.currentIndex]? with
    | none => none
    | some item =>
      some (submitJudgementToBackend (itemField item "path") judgement submitResp
        ((if state.items.currentIndex + 4 > state.items.items.length then
            getNextBatch [] batchResp
          else []) ++
         getStats statsResp ++
         [Event.dispatch Action.showNextItem]))

/-- The /predict request body built by submitDataToScore from the task
data type; any other data type leaves the body null. -/
def predictBody (state : State) : RequestBody :=
  if state.task.dataType == "images" then
    RequestBody.predictImages [state.demo.urlSequence]
  else if state.task.dataType == "text" then
    RequestBody.predictTexts [state.demo.text]
  else
    RequestBody.jsonNull

/-- submitDataToScore: dispatch submitData, POST /predict, then failure
with the status text on a non-ok status, failure with the error field on a
domain error, success otherwise. -/
def submitDataToScore (state : State) (resp : Response) : List Event :=
  [Event.dispatch (Action.submitData (predictBody state)),
   Event.request ⟨"/predict", "POST", predictBody state⟩] ++
  (match resp.ok, resp.json.getField "error" with
   | false, _ => [Event.dispatch (Action.submitDataFailure resp.statusText)]
   | true, some e => [Event.dispatch (Action.submitDataFailure e.asMessage)]
   | true, none => [Event.dispatch (Action.submitDataSuccess resp.json)])

/-- fetchNextBatchItemsBatch: dispatch fetchBatchItems, GET
/batch_items_batch, then failure on a non-ok status, the terminal
batchLabellingComplete when the done field is truthy, and
fetchBatchItemsSuccess with the payload otherwise. -/
def fetchNextBatchItemsBatch (resp : Response) : List Event :=
  [Event.dispatch Action.fetchBatchItems,
   Event.request ⟨"/batch_items_batch", "GET", RequestBody.noBody⟩] ++
  (if resp.ok = false then
    [Event.dispatch (Action.fetchBatchItemsFailure ("Error fetching batch items: " ++ resp.statusText))]
  else if resp.json.truthyField "done" then
    [Event.dispatch Action.batchLabellingComplete]
  else
    [Event.dispatch (Action.fetchBatchItemsSuccess resp.json)])

/-- submitBatchJudgementsToBackend: dispatch recordJudgements, POST
/judgements/batch with the labels array, then failure on a non-ok status
or a domain error; on success dispatch recordJudgementsSuccess and chain
the next batch-items fetch and the stats refresh. -/
def submitBatchJudgementsToBackend (judgements : List JObject)
    (resp nextBatchResp statsResp : Response) : List Event :=
  [Event.dispatch (Action.recordJudgements judgements),
   Event.request ⟨"/judgements/batch", "POST", RequestBody.batchLabels judgements⟩] ++
  (match resp.ok, resp.json.getField "error" with
   | false, _ => [Event.dispatch (Action.recordJudgementsFailure judgements resp.statusText)]
   | true, some e => [Event.dispatch (Action.recordJudgementsFailure judgements e.asMessage)]
   | true, none =>
     Event.dispatch (Action.recordJudgementsSuccess judgements) ::
     (fetchNextBatchItemsBatch nextBatchResp ++ getStats statsResp))

/-- submitBatchJudgements: same guard as the single pipeline, reading the
same state.judgements.submitting flag; when clear, delegate to the
backend submission. -/
def submitBatchJudgements (judgements : List JObject) (state : State)
    (resp nextBatchResp statsResp : Response) : List Event :=
  if state.judgements.submitting then []
  else submitBatchJudgementsToBackend judgements resp nextBatchResp statsResp

/-- The condition under which NavigationBar.render offers the batch-view
toggle: image data with binary or classification labels. -/
def batchToggleOffered (task : TaskState) : Bool :=
  task.dataType == "images" &&
    (task.labelType == "binary" || task.labelType == "classification")

/-- Events produced by a toggle-to-batch request through the navigation
bar: when the toggle is offered, the click handler dispatches
setIsBatchView true; otherwise the affordance is not rendered and the
request produces nothing. -/
def navigationBarToggleToBatch (task : TaskState) : List Event :=
  if batchToggleOffered task then
    [Event.dispatch (Action.setIsBatchView true)]
  else []

/-- Modelled from the spec: the judgements reducer slice is not under
src/; per section 4.2 the submission guard is set true exactly when a
submission pipeline begins (recordJudgement, recordJudgements) and set
false exactly when its request settles, regardless of outcome. -/
def judgementsReducer (s : JudgementsState) (a : Action) : JudgementsState :=
  match a with
  | Action.recordJudgement _ _ => { s with submitting := true }
  | Action.recordJudgements _ => { s with submitting := true }
  | Action.recordJudgementSuccess _ => { s with submitting := false }
  | Action.recordJudgementFailure _ _ => { s with submitting := false }
  | Action.recordJudgementsSuccess _ => { s with submitting := false }
  | Action.recordJudgementsFailure _ _ => { s with submitting := false }
  | _ => s

/-- Boolean recognizer of the per-item judgement failure action. -/
def Action.isJudgementFailure : Action → Bool
  | Action.recordJudgementFailure _ _ => true
  | _ => false

/-- Boolean recognizer of any per-concern failure action. -/
def Action.isFailure : Action → Bool
  | Action.fetchTaskFailure _ => true
  | Action.fetchStatsFailure _ => true
  | Action.fetchItemsFailure _ => true
  | Action.recordJudgementFailure _ _ => true
  | Action.submitDataFailure _ => true
  | Action.recordJudgementsFailure _ _ => true
  | Action.fetchBatchItemsFailure _ => true
  | _ => false

/-- A state whose submission guard is set, used to exercise the guard. -/
def busyState : State :=
  { judgements := { submitting := true },
    items := { items := [[("path", JVal.vstr "a")]], currentIndex := 0 },
    task := { dataType := "images", labelType := "binary", isBatchView := false },
    demo := { urlSequence := "", text := "" } }

/-- An ok response with the empty-object payload. -/
def okEmptyResp : Response :=
  { ok := true, statusText := "OK", json := Json.obj [] }

/-- Claim C1: with the submitting flag true, both the single-item and the
batch submission pipelines abort silently: no outbound request, no
dispatched action, and the store state is unchanged under any reducer. -/
theorem guarded_pipelines_silent_drop (state : State) (j : String)
    (js : List JObject) (r1 r2 r3 r4 r5 r6 : Response)
    (h : state.judgements.submitting = true) :
    submitJudgement j state r1 r2 r3 = some [] ∧
    submitBatchJudgements js state r4 r5 r6 = [] ∧
    (∀ reduce : State → Action → State,
      applyActions reduce state
        (actionsOf ((submitJudgement j state r1 r2 r3).getD [])) = state ∧
      applyActions reduce state
        (actionsOf (submitBatchJudgements js state r4 r5 r6)) = state) := by
  refine ⟨?_, ?_, ?_⟩ <;>
    simp [submitJudgement, submitBatchJudgements, h, actionsOf, applyActions]

/-- Claim C1 witness: the guard drop at a concrete busy state. -/
theorem guarded_pipelines_silent_drop_witness :
    busyState.judgements.submitting = true ∧
    submitJudgement "cat" busyState okEmptyResp okEmptyResp okEmptyResp = some [] :=
  ⟨rfl, (guarded_pipelines_silent_drop busyState "cat" []
    okEmptyResp okEmptyResp okEmptyResp okEmptyResp okEmptyResp okEmptyResp rfl).1⟩

/-- Claim C9: both pipelines consult the one flag
state.judgements.submitting: after the begin action of either pipeline is
reduced into the judgements slice the flag is true, and in that state each
pipeline invocation is silently dropped, so an in-flight single submission
blocks batch submission and vice versa. -/
theorem shared_submitting_flag_blocks_both (state : State)
    (pid : Option JVal) (j j2 : String) (js js2 : List JObject)
    (r1 r2 r3 : Response) :
    ((judgementsReducer state.judgements (Action.recordJudgement pid j)).submitting = true ∧
     (judgementsReducer state.judgements (Action.recordJudgements js)).submitting = true) ∧
    (submitJudgement j2
        { state with judgements := judgementsReducer state.judgements (Action.recordJudgement pid j) }
        r1 r2 r3 = some [] ∧
     submitBatchJudgements js2
        { state with judgements := judgementsReducer state.judgements (Action.recordJudgement pid j) }
        r1 r2 r3 = [] ∧
     submitJudgement j2
        { state with judgements := judgementsReducer state.judgements (Action.recordJudgements js) }
        r1 r2 r3 = some [] ∧
     submitBatchJudgements js2
        { state with judgements := judgementsReducer state.judgements (Action.recordJudgements js) }
        r1 r2 r3 = []) := by
  simp [judgementsReducer, submitJudgement, submitBatchJudgements]

/-- An ok /batch_items_batch response carrying the done flag. -/
def doneResp : Response :=
  { ok := true, statusText := "OK", json := Json.obj [("done", JVal.vbool true)] }

/-- Claim C5: an ok /batch_items_batch response of done true dispatches the
terminal batchLabellingComplete action and no batch-items replacement; any
ok array response dispatches fetchBatchItemsSuccess with that array and no
terminal action. -/
theorem batch_items_done_terminal (resp : Response) (hok : resp.ok = true) :
    (resp.json = Json.obj [("done", JVal.vbool true)] →
      actionsOf (fetchNextBatchItemsBatch resp) =
        [Action.fetchBatchItems, Action.batchLabellingComplete]) ∧
    (∀ l, resp.json = Json.arr l →
      actionsOf (fetchNextBatchItemsBatch resp) =
        [Action.fetchBatchItems, Action.fetchBatchItemsSuccess (Json.arr l)]) := by
  obtain ⟨rok, rst, rjson⟩ := resp
  subst hok
  constructor
  · intro hj
    subst hj
    rfl
  · intro l hj
    subst hj
    rfl

/-- Claim C5 witness: the done-true transition at a concrete response. -/
theorem batch_items_done_terminal_witness :
    doneResp.ok = true ∧
    actionsOf (fetchNextBatchItemsBatch doneResp) =
      [Action.fetchBatchItems, Action.batchLabellingComplete] :=
  ⟨rfl, (batch_items_done_terminal doneResp rfl).1 rfl⟩

/-- Claim C8: for a task outside the images-with-binary-or-classification
combination the batch toggle is not offered, so a toggle-to-batch request
dispatches nothing: the store state is unchanged under any reducer and no
failure action is raised. -/
theorem toggle_to_batch_rejected (task : TaskState) (state : State)
    (h : batchToggleOffered task = false) :
    navigationBarToggleToBatch task = [] ∧
    (∀ reduce : State → Action → State,
      applyActions reduce state (actionsOf (navigationBarToggleToBatch task)) = state) ∧
    (actionsOf (navigationBarToggleToBatch task)).countP Action.isFailure = 0 := by
  refine ⟨?_, ?_, ?_⟩ <;>
    simp [navigationBarToggleToBatch, h, actionsOf, applyActions]

/-- A task outside the batch-capable combination. -/
def textTask : TaskState :=
  { dataType := "text", labelType := "classification", isBatchView := false }

/-- Claim C8 witness: a text-classification task rejects the toggle. -/
theorem toggle_to_batch_rejected_witness :
    batchToggleOffered textTask = false ∧
    navigationBarToggleToBatch textTask = [] :=
  ⟨rfl, (toggle_to_batch_rejected textTask busyState rfl).1⟩

/-- An ok response whose payload carries a domain error field. -/
def domainErrorResp : Response :=
  { ok := true, statusText := "OK", json := Json.obj [("error", JVal.vstr "boom")] }

/-- Claim C4 counterexample: getTask, on an ok response whose payload
carries an error field, dispatches the success action with that payload
and no failure action at all. -/
theorem fetch_domain_error_counterexample :
    getTask domainErrorResp =
      [Event.dispatch Action.fetchTask,
       Event.request ⟨"/task", "GET", RequestBody.noBody⟩,
       Event.dispatch (Action.fetchTaskSuccess (Json.obj [("error", JVal.vstr "boom")]))] ∧
    (actionsOf (getTask domainErrorResp)).countP Action.isFailure = 0 :=
  ⟨rfl, rfl⟩

/-- Claim C4 amended: only the judgement submission calls (single and
batch) and the predict call convert an ok payload with an error field
into the per-concern failure action carrying that message with no success
action; the GET fetches (task, stats, item page, batch item page) raise no
failure on an ok response, the first three dispatching their success
action with the payload unchanged. -/
theorem domain_error_field_handling (resp : Response) (e : JVal)
    (pid : Option JVal) (j : String) (cb : List Event) (js : List JObject)
    (state : State) (r2 r3 : Response) (params : List (String × String))
    (hok : resp.ok = true) (herr : resp.json.getField "error" = some e) :
    actionsOf (submitJudgementToBackend pid j resp cb) =
      [Action.recordJudgement pid j, Action.recordJudgementFailure pid e.asMessage] ∧
    actionsOf (submitBatchJudgementsToBackend js resp r2 r3) =
      [Action.recordJudgements js, Action.recordJudgementsFailure js e.asMessage] ∧
    actionsOf (submitDataToScore state resp) =
      [Action.submitData (predictBody state), Action.submitDataFailure e.asMessage] ∧
    (actionsOf (getTask resp)).countP Action.isFailure = 0 ∧
    Action.fetchTaskSuccess resp.json ∈ actionsOf (getTask resp) ∧
    (actionsOf (getStats resp)).countP Action.isFailure = 0 ∧
    Action.fetchStatsSuccess resp.json ∈ actionsOf (getStats resp) ∧
    (actionsOf (getNextBatch params resp)).countP Action.isFailure = 0 ∧
    Action.fetchItemsSuccess resp.json ∈ actionsOf (getNextBatch params resp) ∧
    (actionsOf (fetchNextBatchItemsBatch resp)).countP Action.isFailure = 0 := by
  obtain ⟨rok, rst, rjson⟩ := resp
  subst hok
  simp only [] at herr
  refine ⟨?_, ?_, ?_, ?_, ?_, ?_, ?_, ?_, ?_, ?_⟩ <;>
    simp [submitJudgementToBackend, submitBatchJudgementsToBackend, submitDataToScore,
      getTask, getStats, getNextBatch, fetchNextBatchItemsBatch, actionsOf, herr,
      Action.isFailure, List.countP_cons, List.countP_nil, Json.truthyField]
  · cases htf : (Json.getField rjson "done") with
    | none => simp [Action.isFailure]
    | some v => cases hv : v.truthy <;> simp [hv, Action.isFailure]

/-- Claim C4 amended witness: the single-item submission failure at a
concrete ok response carrying an error field. -/
theorem domain_error_field_handling_witness :
    domainErrorResp.ok = true ∧
    domainErrorResp.json.getField "error" = some (JVal.vstr "boom") ∧
    actionsOf (submitJudgementToBackend none "cat" domainErrorResp []) =
      [Action.recordJudgement none "cat",
       Action.recordJudgementFailure none (JVal.vstr "boom").asMessage] :=
  ⟨rfl, by decide,
   (domain_error_field_handling domainErrorResp (JVal.vstr "boom") none "cat" [] []
      busyState okEmptyResp okEmptyResp [] rfl (by decide)).1⟩

/-- A failed transport response. -/
def notFoundResp : Response :=
  { ok := false, statusText := "Not Found", json := Json.obj [] }

/-- Claim C7 counterexample: getTask, on a non-ok response with status
text Not Found, dispatches a failure whose message is the prefixed string,
not the bare status text. -/
theorem transport_error_message_counterexample :
    getTask notFoundResp =
      [Event.dispatch Action.fetchTask,
       Event.request ⟨"/task", "GET", RequestBody.noBody⟩,
       Event.dispatch (Action.fetchTaskFailure "Error fetching stats: Not Found")] ∧
    (actionsOf (getTask notFoundResp)).filter
      (fun a => decide (a = Action.fetchTaskFailure "Not Found")) = [] :=
  ⟨rfl, by decide⟩

/-- Claim C7 amended: on a non-success HTTP status the submission and
predict calls dispatch a failure whose message is exactly the transport
status text, while the GET fetch calls dispatch a failure whose message is
a fixed descriptive prefix followed by the status text. -/
theorem transport_failure_messages (resp : Response)
    (pid : Option JVal) (j : String) (cb : List Event) (js : List JObject)
    (state : State) (r2 r3 : Response) (params : List (String × String))
    (hnotok : resp.ok = false) :
    actionsOf (submitJudgementToBackend pid j resp cb) =
      [Action.recordJudgement pid j, Action.recordJudgementFailure pid resp.statusText] ∧
    actionsOf (submitBatchJudgementsToBackend js resp r2 r3) =
      [Action.recordJudgements js, Action.recordJudgementsFailure js resp.statusText] ∧
    actionsOf (submitDataToScore state resp) =
      [Action.submitData (predictBody state), Action.submitDataFailure resp.statusText] ∧
    actionsOf (getTask resp) =
      [Action.fetchTask, Action.fetchTaskFailure ("Error fetching stats: " ++ resp.statusText)] ∧
    actionsOf (getStats resp) =
      [Action.fetchStats, Action.fetchStatsFailure ("Error fetching stats: " ++ resp.statusText)] ∧
    actionsOf (getNextBatch params resp) =
      [Action.fetchItems, Action.fetchItemsFailure ("Error fetching batch items: " ++ resp.statusText)] ∧
    actionsOf (fetchNextBatchItemsBatch resp) =
      [Action.fetchBatchItems, Action.fetchBatchItemsFailure ("Error fetching batch items: " ++ resp.statusText)] := by
  obtain ⟨rok, rst, rjson⟩ := resp
  subst hnotok
  refine ⟨?_, ?_, ?_, ?_, ?_, ?_, ?_⟩ <;>
    simp [submitJudgementToBackend, submitBatchJudgementsToBackend, submitDataToScore,
      getTask, getStats, getNextBatch, fetchNextBatchItemsBatch, actionsOf]

/-- Claim C7 amended witness: the single-item submission and the task
fetch at a concrete non-ok response. -/
theorem transport_failure_messages_witness :
    notFoundResp.ok = false ∧
    actionsOf (submitJudgementToBackend none "cat" notFoundResp []) =
      [Action.recordJudgement none "cat",
       Action.recordJudgementFailure none notFoundResp.statusText] :=
  ⟨rfl,
   (transport_failure_messages notFoundResp none "cat" [] [] busyState
      okEmptyResp okEmptyResp [] rfl).1⟩

/-- Requests split over appended event lists. -/
theorem requestsOf_append (a b : List Event) :
    requestsOf (a ++ b) = requestsOf a ++ requestsOf b := by
  simp [requestsOf, List.filterMap_append]

/-- A dispatched action contributes no request. -/
theorem requestsOf_cons_dispatch (a : Action) (l : List Event) :
    requestsOf (Event.dispatch a :: l) = requestsOf l := by
  simp [requestsOf]

/-- A request event contributes itself. -/
theorem requestsOf_cons_request (r : Request) (l : List Event) :
    requestsOf (Event.request r :: l) = r :: requestsOf l := by
  simp [requestsOf]

/-- No events, no requests. -/
theorem requestsOf_nil : requestsOf [] = [] := by
  simp [requestsOf]

/-- getNextBatch issues exactly the item-page GET, whatever the response. -/
theorem requestsOf_getNextBatch (params : List (String × String)) (resp : Response) :
    requestsOf (getNextBatch params resp) =
      [⟨"/batch?" ++ queryString params, "GET", RequestBody.noBody⟩] := by
  cases h : resp.ok <;> simp [getNextBatch, h, requestsOf]

/-- getStats issues exactly the history GET, whatever the response. -/
theorem requestsOf_getStats (resp : Response) :
    requestsOf (getStats resp) = [⟨"/history", "GET", RequestBody.noBody⟩] := by
  cases h : resp.ok <;> simp [getStats, h, requestsOf]

/-- A state holding ten items bearing the path field, with the cursor at
the given index and the guard clear. -/
def readAheadStateAt (i : Nat) : State :=
  { judgements := { submitting := false },
    items := { items := List.replicate 10 [("path", JVal.vstr "p")], currentIndex := i },
    task := { dataType := "images", labelType := "classification", isBatchView := false },
    demo := { urlSequence := "", text := "" } }

/-- Claim C2 counterexample: with items.length = 10 and currentIndex = 6
(so currentIndex + 4 is at least items.length), the successful submission
issues only the judgement POST and the stats GET: the claimed item-page
fetch does not happen, because the source tests strict excess. -/
theorem read_ahead_at_least_counterexample :
    (readAheadStateAt 6).items.items.length = 10 ∧
    6 + 4 ≥ (readAheadStateAt 6).items.items.length ∧
    requestsOf ((submitJudgement "cat" (readAheadStateAt 6)
        okEmptyResp okEmptyResp okEmptyResp).getD []) =
      [⟨"/judgements", "POST", RequestBody.judgement (some (JVal.vstr "p")) "cat"⟩,
       ⟨"/history", "GET", RequestBody.noBody⟩] ∧
    (requestsOf ((submitJudgement "cat" (readAheadStateAt 6)
        okEmptyResp okEmptyResp okEmptyResp).getD [])).filter
      (fun r => r.url == "/batch?") = [] := by
  refine ⟨by decide, by decide, by decide, by decide⟩

/-- Claim C2 amended: after a successful single-item submission the next
item-page fetch is issued exactly when currentIndex + 4 strictly exceeds
items.length; with items.length = 10, submitting at currentIndex = 7
triggers the fetch while currentIndex = 6 and currentIndex = 4 do not. -/
theorem read_ahead_strict_trigger (state : State) (j : String) (item : JObject)
    (r1 r2 r3 : Response)
    (hsub : state.judgements.submitting = false)
    (hitem : state.items.items[state.items.currentIndex]? = some item)
    (hok : r1.ok = true)
    (herr : r1.json.getField "error" = none) :
    ((⟨"/batch?", "GET", RequestBody.noBody⟩ : Request) ∈
        requestsOf ((submitJudgement j state r1 r2 r3).getD []) ↔
      state.items.currentIndex + 4 > state.items.items.length) := by
  obtain ⟨rok, rst, rjson⟩ := r1
  subst hok
  have hq : ("/batch?" ++ queryString [] : String) = "/batch?" := by decide
  by_cases hc : state.items.currentIndex + 4 > state.items.items.length
  · simp [submitJudgement, hsub, hitem, submitJudgementToBackend, herr, hc,
      requestsOf_append, requestsOf_cons_dispatch, requestsOf_cons_request,
      requestsOf_nil, requestsOf_getNextBatch, requestsOf_getStats, hq]
  · simp [submitJudgement, hsub, hitem, submitJudgementToBackend, herr, hc,
      requestsOf_append, requestsOf_cons_dispatch, requestsOf_cons_request,
      requestsOf_nil, requestsOf_getStats]

/-- Claim C2 amended witness: at ten items and cursor 7 the trigger
condition and the fetch membership hold together. -/
theorem read_ahead_strict_trigger_witness :
    (readAheadStateAt 7).judgements.submitting = false ∧
    (readAheadStateAt 7).items.items[(readAheadStateAt 7).items.currentIndex]? =
      some [("path", JVal.vstr "p")] ∧
    okEmptyResp.ok = true ∧
    okEmptyResp.json.getField "error" = none ∧
    ((⟨"/batch?", "GET", RequestBody.noBody⟩ : Request) ∈
        requestsOf ((submitJudgement "cat" (readAheadStateAt 7)
          okEmptyResp okEmptyResp okEmptyResp).getD []) ↔
      (readAheadStateAt 7).items.currentIndex + 4 > (readAheadStateAt 7).items.items.length) :=
  ⟨rfl, by decide, rfl, by decide,
   read_ahead_strict_trigger (readAheadStateAt 7) "cat" [("path", JVal.vstr "p")]
     okEmptyResp okEmptyResp okEmptyResp rfl (by decide) rfl (by decide)⟩

/-- A guard-clear state whose single item carries only an id field. -/
def idOnlyState : State :=
  { judgements := { submitting := false },
    items := { items := [[("id", JVal.vstr "a")]], currentIndex := 0 },
    task := { dataType := "images", labelType := "classification", isBatchView := false },
    demo := { urlSequence := "", text := "" } }

/-- Claim C3 counterexample: with items [ {id: a} ] and label cat, the
POST /judgements body carries no id value (the path field is absent), not
the id field a: the source reads the path field of the current item. -/
theorem judgement_body_id_counterexample :
    (requestsOf ((submitJudgement "cat" idOnlyState
        okEmptyResp okEmptyResp okEmptyResp).getD [])).head? =
      some ⟨"/judgements", "POST", RequestBody.judgement none "cat"⟩ ∧
    (requestsOf ((submitJudgement "cat" idOnlyState
        okEmptyResp okEmptyResp okEmptyResp).getD [])).filter
      (fun r => decide (r.body = RequestBody.judgement (some (JVal.vstr "a")) "cat")) = [] := by
  refine ⟨by decide, by decide⟩

/-- Claim C3 amended: the request POSTed to /judgements carries id and
label where id is the path field of the current item; for the concrete
state with items [ {path: a} ] and label cat, the body is
{id: a, label: cat}. -/
theorem judgement_body_from_path (state : State) (j : String) (item : JObject)
    (r1 r2 r3 : Response)
    (hsub : state.judgements.submitting = false)
    (hitem : state.items.items[state.items.currentIndex]? = some item) :
    (requestsOf ((submitJudgement j state r1 r2 r3).getD [])).head? =
      some ⟨"/judgements", "POST", RequestBody.judgement (itemField item "path") j⟩ := by
  obtain ⟨rok, rst, rjson⟩ := r1
  cases rok <;>
    cases herr : rjson.getField "error" <;>
      simp [submitJudgement, hsub, hitem, submitJudgementToBackend, herr, requestsOf]

/-- A guard-clear state whose single item carries path a. -/
def pathAState : State :=
  { judgements := { submitting := false },
    items := { items := [[("path", JVal.vstr "a")]], currentIndex := 0 },
    task := { dataType := "images", labelType := "classification", isBatchView := false },
    demo := { urlSequence := "", text := "" } }

/-- Claim C3 amended witness: the scenario with items [ {path: a} ] and
label cat produces the body {id: a, label: cat}. -/
theorem judgement_body_from_path_witness :
    pathAState.judgements.submitting = false ∧
    pathAState.items.items[pathAState.items.currentIndex]? =
      some [("path", JVal.vstr "a")] ∧
    (requestsOf ((submitJudgement "cat" pathAState
        okEmptyResp okEmptyResp okEmptyResp).getD [])).head? =
      some ⟨"/judgements", "POST",
        RequestBody.judgement (itemField [("path", JVal.vstr "a")] "path") "cat"⟩ :=
  ⟨rfl, by decide,
   judgement_body_from_path pathAState "cat" [("path", JVal.vstr "a")]
     okEmptyResp okEmptyResp okEmptyResp rfl (by decide)⟩

/-- Claim C6: a failed single-item submission (transport error or domain
error field) dispatches exactly one per-item failure action, issues only
the judgement POST (no item-page fetch), and triggers neither the stats
refresh nor the cursor advance. -/
theorem failed_submission_no_effects (state : State) (j : String) (item : JObject)
    (r1 r2 r3 : Response)
    (hsub : state.judgements.submitting = false)
    (hitem : state.items.items[state.items.currentIndex]? = some item)
    (hfail : r1.ok = false ∨ (r1.json.getField "error").isSome = true) :
    requestsOf ((submitJudgement j state r1 r2 r3).getD []) =
      [⟨"/judgements", "POST", RequestBody.judgement (itemField item "path") j⟩] ∧
    (actionsOf ((submitJudgement j state r1 r2 r3).getD [])).countP
      Action.isJudgementFailure = 1 ∧
    Action.showNextItem ∉ actionsOf ((submitJudgement j state r1 r2 r3).getD []) ∧
    Action.fetchStats ∉ actionsOf ((submitJudgement j state r1 r2 r3).getD []) ∧
    Action.fetchItems ∉ actionsOf ((submitJudgement j state r1 r2 r3).getD []) := by
  obtain ⟨rok, rst, rjson⟩ := r1
  rcases hfail with h | h
  · subst h
    refine ⟨?_, ?_, ?_, ?_, ?_⟩ <;>
      simp [submitJudgement, hsub, hitem, submitJudgementToBackend,
        requestsOf, actionsOf, Action.isJudgementFailure]
  · rcases Option.isSome_iff_exists.mp h with ⟨e, he⟩
    cases rok <;>
      refine ⟨?_, ?_, ?_, ?_, ?_⟩ <;>
        simp [submitJudgement, hsub, hitem, submitJudgementToBackend, he,
          requestsOf, actionsOf, Action.isJudgementFailure]

/-- A non-ok response used to exercise the failure path. -/
def badGatewayResp : Response :=
  { ok := false, statusText := "Bad Gateway", json := Json.obj [] }

/-- Claim C6 witness: the failed submission at a concrete transport
error. -/
theorem failed_submission_no_effects_witness :
    pathAState.judgements.submitting = false ∧
    pathAState.items.items[pathAState.items.currentIndex]? =
      some [("path", JVal.vstr "a")] ∧
    (badGatewayResp.ok = false ∨ (badGatewayResp.json.getField "error").isSome = true) ∧
    requestsOf ((submitJudgement "cat" pathAState
        badGatewayResp okEmptyResp okEmptyResp).getD []) =
      [⟨"/judgements", "POST",
        RequestBody.judgement (itemField [("path", JVal.vstr "a")] "path") "cat"⟩] :=
  ⟨rfl, by decide, Or.inl rfl,
   (failed_submission_no_effects pathAState "cat" [("path", JVal.vstr "a")]
      badGatewayResp okEmptyResp okEmptyResp rfl (by decide) (Or.inl rfl)).1⟩

/-- Claim C10: when the read-ahead fires after a successful submission,
the requests issued are exactly the judgement POST, the item-page GET
/batch? with the empty query string (getNextBatch is invoked with no
params), and the stats GET. -/
theorem read_ahead_fetch_empty_query (state : State) (j : String) (item : JObject)
    (r1 r2 r3 : Response)
    (hsub : state.judgements.submitting = false)
    (hitem : state.items.items[state.items.currentIndex]? = some item)
    (hok : r1.ok = true)
    (herr : r1.json.getField "error" = none)
    (htrig : state.items.currentIndex + 4 > state.items.items.length) :
    queryString [] = "" ∧
    requestsOf ((submitJudgement j state r1 r2 r3).getD []) =
      [⟨"/judgements", "POST", RequestBody.judgement (itemField item "path") j⟩,
       ⟨"/batch?" ++ queryString [], "GET", RequestBody.noBody⟩,
       ⟨"/history", "GET", RequestBody.noBody⟩] := by
  obtain ⟨rok, rst, rjson⟩ := r1
  subst hok
  refine ⟨by decide, ?_⟩
  simp [submitJudgement, hsub, hitem, submitJudgementToBackend, herr, htrig,
    requestsOf_append, requestsOf_cons_dispatch, requestsOf_cons_request,
    requestsOf_nil, requestsOf_getNextBatch, requestsOf_getStats]

/-- Claim C10 witness: the read-ahead at ten items and cursor 7 issues the
empty-query item-page fetch. -/
theorem read_ahead_fetch_empty_query_witness :
    (readAheadStateAt 7).judgements.submitting = false ∧
    (readAheadStateAt 7).items.items[(readAheadStateAt 7).items.currentIndex]? =
      some [("path", JVal.vstr "p")] ∧
    okEmptyResp.ok = true ∧
    okEmptyResp.json.getField "error" = none ∧
    (readAheadStateAt 7).items.currentIndex + 4 > (readAheadStateAt 7).items.items.length ∧
    queryString [] = "" :=
  ⟨rfl, by decide, rfl, by decide, by decide,
   (read_ahead_fetch_empty_query (readAheadStateAt 7) "cat" [("path", JVal.vstr "p")]
      okEmptyResp okEmptyResp okEmptyResp rfl (by decide) rfl (by decide) (by decide)).1⟩

end Labelling
